import Mathlib

/-!
Shallow embedding of the video-processing core of the LONG_VIDEO_AUTOMATION
repository.

JavaScript numbers are modelled as `ℚ` (exact rational arithmetic standing in
for IEEE doubles), opaque timestamps (`Date`) and generated job identifiers as
`ℕ`, and JS `Map`s as association lists with `Map.set` replace-or-append
semantics.  Fallible methods return `Except VPErr`; the error taxonomy is an
inductive type carrying the data the thrown message interpolates.  The
falsiness of `0`, `""` and `undefined` in `x || y` and `if (x)` guards is
modelled explicitly (`jsOrQ`, emptiness tests on strings).
-/

/-- JavaScript `a || b` on an optional number: `undefined` and `0` are falsy. -/
def jsOrQ (a : Option ℚ) (b : ℚ) : ℚ :=
  match a with
  | none => b
  | some v => if v = 0 then b else v

/-- Lookup in an association list, modelling `Map.get`. -/
def assocLookup {α β : Type} [DecidableEq α] : List (α × β) → α → Option β
  | [], _ => none
  | (k, v) :: t, k' => if k = k' then some v else assocLookup t k'

/-- `Map.set`: replace the value in place when the key is present, else append. -/
def mapSet {α β : Type} [DecidableEq α] : List (α × β) → α → β → List (α × β)
  | [], k, v => [(k, v)]
  | (k', v') :: t, k, v =>
      if k' = k then (k, v) :: t else (k', v') :: mapSet t k v

/-- `Map.delete`: remove the entry with the given key, if any. -/
def mapDelete {α β : Type} [DecidableEq α] : List (α × β) → α → List (α × β)
  | [], _ => []
  | (k', v') :: t, k => if k' = k then t else (k', v') :: mapDelete t k

/-- Error taxonomy of the processing core (the messages thrown by the source,
with the data each message interpolates). -/
inductive VPErr : Type
  | inputNotFound (path : String)
  | fileTooLarge (size limit : ℚ)
  | unsupportedInputFormat (fmt : String)
  | corruptFile
  | metadataFailed (msg : String)
  | insufficientMemory (required available : ℚ)
  | unsupportedOutputFormat (fmt : String)
  | widthExceedsLimit
  | heightExceedsLimit
  | bitrateExceedsLimit
  | frameRateExceedsLimit
deriving DecidableEq, Repr

/-- `VideoMetadata` (src/unnamed/part_000). -/
structure VideoMetadata : Type where
  duration : ℚ
  width : ℚ
  height : ℚ
  frameRate : ℚ
  bitrate : ℚ
  codec : String
  audioCodec : String
  fileSize : ℚ
  format : String
  hasAudio : Bool
  colorSpace : String
  aspectRatio : String
deriving DecidableEq, Repr

/-- `VideoProcessingOptions` (src/unnamed/part_000).  `outputFormat` and
`quality` are runtime strings: TypeScript union types are erased and the code
is exercised with values outside the union (`'invalid' as any` in the tests,
AI-recommended strings through `any`-typed analysis results). -/
structure VideoProcessingOptions : Type where
  outputFormat : String
  quality : String
  width : Option ℚ := none
  height : Option ℚ := none
  bitrate : Option ℚ := none
  frameRate : Option ℚ := none
  codec : Option String := none
  audioCodec : Option String := none
  removeAudio : Option Bool := none
  startTime : Option ℚ := none
  endTime : Option ℚ := none
deriving DecidableEq, Repr

/-- `this.supportedFormats` of `VideoProcessor`. -/
def supportedFormats : List String := ["mp4", "avi", "mov", "webm", "mkv"]

/-! ## MemoryManager (src/src/utils/memoryManager.ts) -/

/-- State of a `MemoryManager` instance. -/
structure MemoryManager : Type where
  memoryLimit : ℚ
  currentUsage : ℚ
  reservedMemory : List (String × ℚ)
deriving DecidableEq, Repr

/-- `new MemoryManager(limit)`. -/
def MemoryManager.init (limit : ℚ) : MemoryManager :=
  { memoryLimit := limit, currentUsage := 0, reservedMemory := [] }

/-- `checkAvailableMemory` (memoryManager.ts lines 16–25): throws when
`requiredMemory > memoryLimit - currentUsage`, otherwise resolves; the method
only reads the instance, so the state component of the result is the input
state. -/
def checkAvailableMemory (m : MemoryManager) (requiredMemory : ℚ) :
    Except VPErr Unit × MemoryManager :=
  let availableMemory := m.memoryLimit - m.currentUsage
  (if availableMemory < requiredMemory then
    Except.error (VPErr.insufficientMemory requiredMemory availableMemory)
  else Except.ok (), m)

/-- `reserveMemory` (memoryManager.ts lines 30–33): `Map.set` then add the
amount to `currentUsage` (a second reserve under the same id overwrites the
entry but still adds). -/
def reserveMemory (m : MemoryManager) (operationId : String) (amount : ℚ) :
    MemoryManager :=
  { m with
    reservedMemory := mapSet m.reservedMemory operationId amount
    currentUsage := m.currentUsage + amount }

/-- `releaseMemory` (memoryManager.ts lines 38–44): the `if (amount)` guard is
JS truthiness, so an unknown id or a reservation of `0` bytes is a no-op. -/
def releaseMemory (m : MemoryManager) (operationId : String) : MemoryManager :=
  match assocLookup m.reservedMemory operationId with
  | none => m
  | some amount =>
      if amount = 0 then m
      else
        { m with
          currentUsage := m.currentUsage - amount
          reservedMemory := mapDelete m.reservedMemory operationId }

/-- `cleanup` (memoryManager.ts lines 63–71): clears the whole reservation map
and zeroes `currentUsage`. -/
def MemoryManager.cleanup (m : MemoryManager) : MemoryManager :=
  { m with reservedMemory := [], currentUsage := 0 }

/-! ## VideoProcessor: option validation and parameter resolution
(second file concatenated in src/src/services/ttsService.ts) -/

/-- `validateProcessingOptions` (ttsService.ts lines 364–391).  The dimension,
bitrate and frame-rate guards are `options.x && options.x > bound`: absent or
`0` values are falsy and skip the check. -/
def validateProcessingOptions (options : VideoProcessingOptions)
    (metadata : VideoMetadata) : Except VPErr Unit :=
  if options.outputFormat ∉ supportedFormats then
    Except.error (VPErr.unsupportedOutputFormat options.outputFormat)
  else if (jsOrQ options.width 0) ≠ 0 ∧ metadata.width * 2 < jsOrQ options.width 0 then
    Except.error VPErr.widthExceedsLimit
  else if (jsOrQ options.height 0) ≠ 0 ∧ metadata.height * 2 < jsOrQ options.height 0 then
    Except.error VPErr.heightExceedsLimit
  else if (jsOrQ options.bitrate 0) ≠ 0 ∧ 50000000 < jsOrQ options.bitrate 0 then
    Except.error VPErr.bitrateExceedsLimit
  else if (jsOrQ options.frameRate 0) ≠ 0 ∧ 120 < jsOrQ options.frameRate 0 then
    Except.error VPErr.frameRateExceedsLimit
  else Except.ok ()

/-- `qualityMultipliers[quality] || 1.0` of `calculateOptimalBitrate`. -/
def qualityMultiplier (quality : String) : ℚ :=
  if quality = "low" then 1/2
  else if quality = "medium" then 1
  else if quality = "high" then 3/2
  else if quality = "ultra" then 2
  else 1

/-- `calculateOptimalBitrate` (ttsService.ts lines 464–476).  `Math.floor` is
`Rat.floor` (round toward minus infinity, computable). -/
def calculateOptimalBitrate (width height : ℚ) (quality : String) : ℚ :=
  let pixelCount := width * height
  let baseRate := pixelCount / 1000
  (Rat.floor (baseRate * qualityMultiplier quality) : ℤ)

/-- `qualityAdjustments[quality] || 0.6` of `calculateCompressionRatio`. -/
def qualityAdjustment (quality : String) : ℚ :=
  if quality = "low" then 3/10
  else if quality = "medium" then 3/5
  else if quality = "high" then 4/5
  else if quality = "ultra" then 1
  else 3/5

/-- `calculateCompressionRatio` (ttsService.ts lines 481–493). -/
def calculateCompressionRatio (quality : String) (outputBitrate inputBitrate : ℚ) : ℚ :=
  (outputBitrate / inputBitrate) * qualityAdjustment quality

/-- `baseScores[quality] || 75` of `calculateQualityScore`. -/
def baseScore (quality : String) : ℚ :=
  if quality = "low" then 60
  else if quality = "medium" then 75
  else if quality = "high" then 85
  else if quality = "ultra" then 95
  else 75

/-- `calculateQualityScore` (ttsService.ts lines 498–510). -/
def calculateQualityScore (quality : String) (compressionRatio : ℚ) : ℚ :=
  let base := baseScore quality
  let compressionPenalty := max 0 ((1 - compressionRatio) * 20)
  max 0 (min 100 (base - compressionPenalty))

/-- Result record of `calculateProcessingParameters`. -/
structure ResolvedParameters : Type where
  width : ℚ
  height : ℚ
  bitrate : ℚ
  frameRate : ℚ
  compressionRatio : ℚ
  qualityScore : ℚ
deriving DecidableEq, Repr

/-- `calculateProcessingParameters` (ttsService.ts lines 436–459).  Each
`options.x || fallback` is JS `||`: an explicit `0` falls back. -/
def calculateProcessingParameters (options : VideoProcessingOptions)
    (metadata : VideoMetadata) : ResolvedParameters :=
  let width := jsOrQ options.width metadata.width
  let height := jsOrQ options.height metadata.height
  let bitrate := jsOrQ options.bitrate (calculateOptimalBitrate width height options.quality)
  let frameRate := jsOrQ options.frameRate metadata.frameRate
  let compressionRatio := calculateCompressionRatio options.quality bitrate metadata.bitrate
  let qualityScore := calculateQualityScore options.quality compressionRatio
  { width := width, height := height, bitrate := bitrate, frameRate := frameRate
    compressionRatio := compressionRatio, qualityScore := qualityScore }

/-- `Rat.floor` agrees with the `Int.floor` of the floor ring `ℚ`. -/
theorem ratFloor_eq_intFloor (q : ℚ) : (Rat.floor q : ℤ) = ⌊q⌋ := by
  rw [Rat.floor_def' q, Rat.floor_def]

example : (calculateProcessingParameters
    { outputFormat := "mp4", quality := "medium" }
    { duration := 120, width := 1920, height := 1080, frameRate := 30,
      bitrate := 5000000, codec := "h264", audioCodec := "aac",
      fileSize := 1000, format := "mp4", hasAudio := true,
      colorSpace := "yuv420p", aspectRatio := "16:9" }).bitrate = 2073 := by
  simp [calculateProcessingParameters, calculateOptimalBitrate, jsOrQ,
    qualityMultiplier, ratFloor_eq_intFloor]
  norm_num

/-! ## VideoProcessor.processVideo (ttsService.ts lines 227–301)

The fallible external collaborators of `processVideo` — the filesystem checks
of `validateInputFile` and the metadata extraction of `getVideoMetadata` — are
supplied as an environment of outcomes; the rest of the method is deterministic
(`simulateVideoProcessing` only sleeps and always resolves).  The `finally`
block runs `memoryManager.cleanup()` on every exit path. -/

/-- `ProcessingResult` (src/unnamed/part_000); the error is the structured
taxonomy value whose message the source would report. -/
structure ProcessingResult : Type where
  success : Bool
  processingId : ℕ
  outputPath : Option String := none
  metadata : Option VideoMetadata := none
  processingTime : ℚ
  compressionRatio : Option ℚ := none
  qualityScore : Option ℚ := none
  error : Option VPErr := none
deriving DecidableEq, Repr

/-- Outcomes of the external collaborators consumed by one run of
`VideoProcessor.processVideo`, plus the opaque generated id and wall-clock
duration. -/
structure VPEnv : Type where
  inputPath : String
  outputPath : String
  validateInput : Except VPErr Unit
  metadataResult : Except VPErr VideoMetadata
  processingId : ℕ
  elapsed : ℚ
deriving Repr

/-- `executeVideoProcessing` (ttsService.ts lines 396–431): computes the
resolved parameters and the output metadata; the simulated processing loop
always succeeds. -/
def executeVideoProcessing (options : VideoProcessingOptions)
    (metadata : VideoMetadata) : VideoMetadata × ℚ × ℚ :=
  let p := calculateProcessingParameters options metadata
  ({ metadata with
      width := p.width, height := p.height, bitrate := p.bitrate,
      frameRate := p.frameRate, format := options.outputFormat,
      fileSize := (Rat.floor (metadata.fileSize * p.compressionRatio) : ℤ) },
   p.compressionRatio, p.qualityScore)

/-- `VideoProcessor.processVideo` (ttsService.ts lines 227–301): validate the
input file, extract metadata, check the memory ledger, validate the options,
execute; any throw is caught and reported as `success := false`; the `finally`
block calls `memoryManager.cleanup()` unconditionally. -/
def processVideoVP (env : VPEnv) (options : VideoProcessingOptions)
    (m : MemoryManager) : ProcessingResult × MemoryManager :=
  let failWith : VPErr → ProcessingResult := fun e =>
    { success := false, processingId := env.processingId,
      processingTime := env.elapsed, error := some e }
  match env.validateInput with
  | Except.error e => (failWith e, m.cleanup)
  | Except.ok () =>
    match env.metadataResult with
    | Except.error e => (failWith e, m.cleanup)
    | Except.ok md =>
      match (checkAvailableMemory m md.fileSize).1 with
      | Except.error e => (failWith e, (checkAvailableMemory m md.fileSize).2.cleanup)
      | Except.ok () =>
        match validateProcessingOptions options md with
        | Except.error e => (failWith e, m.cleanup)
        | Except.ok () =>
          let r := executeVideoProcessing options md
          ({ success := true, processingId := env.processingId,
             outputPath := some env.outputPath, metadata := some r.1,
             processingTime := env.elapsed, compressionRatio := some r.2.1,
             qualityScore := some r.2.2, error := none }, m.cleanup)

/-! ## GeminiVideoAnalyzer (src/src/services/geminiVideoAnalyzer.ts) -/

/-- JavaScript `a || b` on an optional string: `undefined` and `""` are falsy. -/
def jsOrStr (a : Option String) (b : String) : String :=
  match a with
  | none => b
  | some v => if v = "" then b else v

/-- The `qualityAssessment` record of an analysis. -/
structure QualityAssessment : Type where
  videoQuality : ℚ
  audioQuality : ℚ
  overallScore : ℚ
deriving DecidableEq, Repr

/-- The `sceneMetadata` record of a `ContentAnalysis` (scene count, motion
level, complexity). -/
structure SceneMetadata : Type where
  scenes : ℚ
  motionLevel : String
  complexity : ℚ
deriving DecidableEq, Repr

/-- The `recommendations` object optionally present in the JSON the external
analyzer returns (stored as `rawRecommendations`, never read downstream). -/
structure ParsedRecommendations : Type where
  suggestedFormat : Option String := none
  suggestedQuality : Option String := none
deriving DecidableEq, Repr

/-- The fields of a successfully `JSON.parse`d Gemini reply that
`parseGeminiResponse` reads; each is optional, with `||` defaults applied. -/
structure ParsedGemini : Type where
  contentType : Option String := none
  videoQuality : Option ℚ := none
  audioQuality : Option ℚ := none
  overallScore : Option ℚ := none
  sceneCount : Option ℚ := none
  motionLevel : Option String := none
  complexityScore : Option ℚ := none
  recommendations : Option ParsedRecommendations := none
deriving DecidableEq, Repr

/-- `ContentAnalysis` (geminiVideoAnalyzer.ts lines 361–374). -/
structure ContentAnalysis : Type where
  contentType : String
  qualityAssessment : QualityAssessment
  sceneMetadata : SceneMetadata
  rawRecommendations : ParsedRecommendations
deriving DecidableEq, Repr

/-- `estimateVideoQuality` (geminiVideoAnalyzer.ts lines 276–295). -/
def estimateVideoQuality (metadata : VideoMetadata) : ℚ :=
  let score : ℚ := 50
  let pixelCount := metadata.width * metadata.height
  let score := if 1920 * 1080 ≤ pixelCount then score + 20
    else if 1280 * 720 ≤ pixelCount then score + 10 else score
  let bitratePerPixel := metadata.bitrate / pixelCount
  let score := if 1/10 < bitratePerPixel then score + 15
    else if 1/20 < bitratePerPixel then score + 10
    else if 1/50 < bitratePerPixel then score + 5 else score
  let score := if 60 ≤ metadata.frameRate then score + 10
    else if 30 ≤ metadata.frameRate then score + 5 else score
  min 100 (max 0 score)

/-- `generateFallbackAnalysis` (geminiVideoAnalyzer.ts lines 256–271): the
locally synthesized analysis used whenever the external call or its parsing
fails; derived from `metadata` alone. -/
def generateFallbackAnalysis (metadata : VideoMetadata) : ContentAnalysis :=
  { contentType := "unknown"
    qualityAssessment :=
      { videoQuality := estimateVideoQuality metadata
        audioQuality := if metadata.hasAudio then 75 else 0
        overallScore := 70 }
    sceneMetadata :=
      { scenes := (max 1 (Rat.floor (metadata.duration / 30)) : ℤ)
        motionLevel := "medium"
        complexity := 50 }
    rawRecommendations := {} }

/-- `parseGeminiResponse` (geminiVideoAnalyzer.ts lines 222–251), success path:
a JSON object was extracted and parsed; `||` defaults fill each field.  (Its
catch path — no JSON found or `JSON.parse` throwing — returns
`generateFallbackAnalysis` and is a `FetchOutcome` case below.) -/
def parseGeminiResponse (parsed : ParsedGemini) : ContentAnalysis :=
  { contentType := jsOrStr parsed.contentType "unknown"
    qualityAssessment :=
      { videoQuality := jsOrQ parsed.videoQuality 75
        audioQuality := jsOrQ parsed.audioQuality 75
        overallScore := jsOrQ parsed.overallScore 75 }
    sceneMetadata :=
      { scenes := jsOrQ parsed.sceneCount 1
        motionLevel := jsOrStr parsed.motionLevel "medium"
        complexity := jsOrQ parsed.complexityScore 50 }
    rawRecommendations := parsed.recommendations.getD {} }

/-- The observable outcomes of the `fetch` to the external analyzer together
with response handling (geminiVideoAnalyzer.ts lines 103–153): a rejected
fetch (network failure), a timeout, a non-OK HTTP status (`!response.ok`
throws), a body without candidates (`!data.candidates` throws), a candidate
text in which no JSON parses (`parseGeminiResponse`'s catch), or a parsed
JSON object. -/
inductive FetchOutcome : Type
  | networkError (msg : String)
  | timeout
  | httpError (status : ℕ) (statusText : String)
  | okNoCandidates
  | okUnparseable
  | okParsed (parsed : ParsedGemini)
deriving DecidableEq, Repr

/-- The outcomes the claim enumerates as failures of the external call. -/
def FetchOutcome.isFailure : FetchOutcome → Bool
  | FetchOutcome.okParsed _ => false
  | _ => true

/-- `analyzeContentWithGemini` (geminiVideoAnalyzer.ts lines 96–161): every
throw inside the `try` (rejected fetch, non-OK status, missing candidates) is
caught and answered with `generateFallbackAnalysis(metadata)`; an unparseable
candidate text reaches the same fallback through `parseGeminiResponse`'s own
catch.  The function is total: no error propagates. -/
def analyzeContentWithGemini (outcome : FetchOutcome)
    (metadata : VideoMetadata) : ContentAnalysis :=
  match outcome with
  | FetchOutcome.okParsed parsed => parseGeminiResponse parsed
  | _ => generateFallbackAnalysis metadata

/-- The `recommendations` record of a `GeminiAnalysisResult`
(src/unnamed/part_000).  `suggestedFormat` is a runtime string (the source
casts it with `as any`). -/
structure GeminiRecommendations : Type where
  suggestedFormat : String
  suggestedQuality : String
  optimizations : List String
deriving DecidableEq, Repr

/-- `generateOptimizationRecommendations` (geminiVideoAnalyzer.ts
lines 300–346). -/
def generateOptimizationRecommendations (analysis : ContentAnalysis)
    (metadata : VideoMetadata) : GeminiRecommendations :=
  let suggestedFormat :=
    if analysis.contentType = "web" ∨ analysis.contentType = "streaming" then "webm"
    else "mp4"
  let suggestedQuality :=
    if 85 < analysis.qualityAssessment.overallScore then "high"
    else if analysis.qualityAssessment.overallScore < 60 then "low"
    else "medium"
  let recommendations : List String :=
    (if analysis.sceneMetadata.motionLevel = "high" then
      ["Use higher bitrate for motion-heavy content",
       "Consider 60fps for smooth motion"] else []) ++
    (if 70 < analysis.sceneMetadata.complexity then
      ["Use advanced encoding settings for complex scenes",
       "Consider two-pass encoding for better quality"] else []) ++
    (if 1024 * 1024 * 1024 < metadata.fileSize then
      ["Apply compression to reduce file size",
       "Consider segmented encoding for large files"] else []) ++
    (if analysis.qualityAssessment.videoQuality < 70 then
      ["Apply noise reduction filters",
       "Use sharpening filters to improve clarity"] else [])
  { suggestedFormat := suggestedFormat, suggestedQuality := suggestedQuality,
    optimizations := recommendations }

/-- `GeminiAnalysisResult` (src/unnamed/part_000). -/
structure GeminiAnalysisResult : Type where
  contentType : String
  duration : ℚ
  qualityAssessment : QualityAssessment
  recommendations : GeminiRecommendations
  metadata : SceneMetadata
deriving DecidableEq, Repr

/-- `analyzeVideo` (geminiVideoAnalyzer.ts lines 25–59): frame extraction and
recommendation generation never throw, `analyzeContentWithGemini` absorbs
every failure of the external call, so the outer catch (which would rethrow
as `Video analysis failed: …`) is unreachable on the modelled paths and the
method resolves. -/
def analyzeVideo (outcome : FetchOutcome) (metadata : VideoMetadata) :
    Except String GeminiAnalysisResult :=
  let contentAnalysis := analyzeContentWithGemini outcome metadata
  let recommendations := generateOptimizationRecommendations contentAnalysis metadata
  Except.ok
    { contentType := contentAnalysis.contentType
      duration := metadata.duration
      qualityAssessment := contentAnalysis.qualityAssessment
      recommendations := recommendations
      metadata := contentAnalysis.sceneMetadata }

/-- The analysis result `analyzeVideo` returns on every failure of the
external call: `generateFallbackAnalysis` packaged by `analyzeVideo`'s tail,
a function of the metadata alone. -/
def fallbackAnalysisResult (metadata : VideoMetadata) : GeminiAnalysisResult :=
  let ca := generateFallbackAnalysis metadata
  { contentType := ca.contentType
    duration := metadata.duration
    qualityAssessment := ca.qualityAssessment
    recommendations := generateOptimizationRecommendations ca metadata
    metadata := ca.sceneMetadata }

/-! ## VideoProcessingService (src/src/services/videoProcessingService.ts) -/

/-- The status union of `ProcessingJob` (src/unnamed/part_000 line 42):
`'queued' | 'processing' | 'completed' | 'failed'` — the enumeration has no
dedicated cancelled value. -/
inductive JobStatus : Type
  | queued
  | processing
  | completed
  | failed
deriving DecidableEq, Repr

/-- `ProcessingJob` (src/unnamed/part_000 lines 37–48); ids and `Date`
timestamps are opaque naturals. -/
structure ProcessingJob : Type where
  id : ℕ
  inputPath : String
  outputPath : String
  options : VideoProcessingOptions
  status : JobStatus
  progress : ℚ
  createdAt : ℕ
  startedAt : Option ℕ := none
  completedAt : Option ℕ := none
  error : Option String := none
deriving DecidableEq, Repr

/-- `VideoProcessingConfig` (src/unnamed/part_000 lines 1–7). -/
structure VideoProcessingConfig : Type where
  memoryLimit : ℚ
  maxFileSize : ℚ
  tempDirectory : String
  maxConcurrentJobs : ℕ
  enableGPUAcceleration : Bool
deriving DecidableEq, Repr

/-- The service's `jobs: Map<string, ProcessingJob>`. -/
abbrev JobMap := List (ℕ × ProcessingJob)

/-- The synchronous admission prefix of `VideoProcessingService.processVideo`
(videoProcessingService.ts lines 44–72): the job is inserted with status
`'queued'` and, in the same synchronous block — before the first `await`,
so before any other job can observe it — set to `'processing'` with
`startedAt` stamped.  The `config` (in particular `maxConcurrentJobs`) is
not consulted anywhere on this path. -/
def submitJob (_config : VideoProcessingConfig) (jobs : JobMap) (jobId : ℕ)
    (inputPath outputPath : String) (options : VideoProcessingOptions)
    (now : ℕ) : JobMap :=
  mapSet jobs jobId
    { id := jobId, inputPath := inputPath, outputPath := outputPath,
      options := options, status := JobStatus.processing, progress := 0,
      createdAt := now, startedAt := some now }

/-- Job completion (videoProcessingService.ts lines 112–118). -/
def completeJob (jobs : JobMap) (jobId : ℕ) (now : ℕ) : JobMap :=
  match assocLookup jobs jobId with
  | none => jobs
  | some job =>
      mapSet jobs jobId
        { job with status := JobStatus.completed, progress := 100,
                   completedAt := some now }

/-- Job failure (videoProcessingService.ts lines 119–126 and 130–137). -/
def failJob (jobs : JobMap) (jobId : ℕ) (msg : String) (now : ℕ) : JobMap :=
  match assocLookup jobs jobId with
  | none => jobs
  | some job =>
      mapSet jobs jobId
        { job with status := JobStatus.failed, error := some msg,
                   completedAt := some now }

/-- `cancelJob` (videoProcessingService.ts lines 204–218): returns `false`
and leaves the map untouched unless the job exists with status
`'processing'`; a successful cancellation sets status `'failed'`, error
`'Cancelled by user'` and `completedAt`, then emits `jobCancelled`. -/
def cancelJob (jobs : JobMap) (jobId : ℕ) (now : ℕ) : JobMap × Bool :=
  match assocLookup jobs jobId with
  | none => (jobs, false)
  | some job =>
      if job.status ≠ JobStatus.processing then (jobs, false)
      else
        (mapSet jobs jobId
          { job with status := JobStatus.failed,
                     error := some "Cancelled by user",
                     completedAt := some now }, true)

/-- The observable transitions of the service's job map. -/
inductive ServiceEvent : Type
  | submit (jobId : ℕ) (inputPath outputPath : String)
      (options : VideoProcessingOptions) (now : ℕ)
  | complete (jobId : ℕ) (now : ℕ)
  | fail (jobId : ℕ) (msg : String) (now : ℕ)
  | cancel (jobId : ℕ) (now : ℕ)
deriving Repr

/-- One step of the service's job map. -/
def serviceStep (config : VideoProcessingConfig) (jobs : JobMap) :
    ServiceEvent → JobMap
  | ServiceEvent.submit jobId i o opts t => submitJob config jobs jobId i o opts t
  | ServiceEvent.complete jobId t => completeJob jobs jobId t
  | ServiceEvent.fail jobId msg t => failJob jobs jobId msg t
  | ServiceEvent.cancel jobId t => (cancelJob jobs jobId t).1

/-- A trace of service events applied in order. -/
def applyEvents (config : VideoProcessingConfig) (events : List ServiceEvent)
    (jobs : JobMap) : JobMap :=
  events.foldl (serviceStep config) jobs

/-- Number of jobs currently in the `'processing'` state. -/
def countProcessing (jobs : JobMap) : ℕ :=
  jobs.countP (fun p => decide (p.2.status = JobStatus.processing))

/-- `enhanceOptionsWithAI` (videoProcessingService.ts lines 153–183): copies
the options and overwrites `outputFormat` / `quality` with the recommended
value when it is truthy (non-empty) and differs from the requested one.  The
`if (analysis.recommendations)` guard is always truthy for an analysis
produced by `analyzeVideo` (the record always exists).  No validation happens
here. -/
def enhanceOptionsWithAI (originalOptions : VideoProcessingOptions)
    (analysis : GeminiAnalysisResult) : VideoProcessingOptions :=
  let enhanced := originalOptions
  let enhanced :=
    if analysis.recommendations.suggestedFormat ≠ "" ∧
        analysis.recommendations.suggestedFormat ≠ originalOptions.outputFormat then
      { enhanced with outputFormat := analysis.recommendations.suggestedFormat }
    else enhanced
  let enhanced :=
    if analysis.recommendations.suggestedQuality ≠ "" ∧
        analysis.recommendations.suggestedQuality ≠ originalOptions.quality then
      { enhanced with quality := analysis.recommendations.suggestedQuality }
    else enhanced
  enhanced

/-- Modelled from the claim's words, for comparison with
`calculateProcessingParameters` (refinement): the resolver as the claim states
it, with `??` (`Option.getD`) taking the option value whenever it is present —
including an explicit `0` — and the same quality tables. -/
def specResolvedParameters (options : VideoProcessingOptions)
    (metadata : VideoMetadata) : ResolvedParameters :=
  let width := options.width.getD metadata.width
  let height := options.height.getD metadata.height
  let bitrate := options.bitrate.getD
    ((Rat.floor ((width * height / 1000) * qualityMultiplier options.quality) : ℤ) : ℚ)
  let frameRate := options.frameRate.getD metadata.frameRate
  let compressionRatio := (bitrate / metadata.bitrate) * qualityAdjustment options.quality
  let qualityScore :=
    max 0 (min 100 (baseScore options.quality - max 0 ((1 - compressionRatio) * 20)))
  { width := width, height := height, bitrate := bitrate, frameRate := frameRate
    compressionRatio := compressionRatio, qualityScore := qualityScore }

/-! ## Shared helper lemmas and fixtures -/

/-- The metadata `getVideoMetadata` reports (ttsService.ts lines 334–359) for
a 100 MiB mp4 source. -/
def mdStd : VideoMetadata :=
  { duration := 120, width := 1920, height := 1080, frameRate := 30,
    bitrate := 5000000, codec := "h264", audioCodec := "aac",
    fileSize := 104857600, format := "mp4", hasAudio := true,
    colorSpace := "yuv420p", aspectRatio := "16:9" }

/-- Looking up the key just written by `mapSet` yields the written value. -/
theorem assocLookup_mapSet_self {α β : Type} [DecidableEq α]
    (l : List (α × β)) (k : α) (v : β) :
    assocLookup (mapSet l k v) k = some v := by
  induction l with
  | nil => simp [mapSet, assocLookup]
  | cons p t ih =>
      obtain ⟨k', v'⟩ := p
      by_cases hk : k' = k
      · subst hk
        simp [mapSet, assocLookup]
      · simp [mapSet, assocLookup, hk, ih]

/-- `mapSet` on a key absent from the list appends the new entry. -/
theorem mapSet_fresh {α β : Type} [DecidableEq α]
    (l : List (α × β)) (k : α) (v : β) (h : ∀ p ∈ l, p.1 ≠ k) :
    mapSet l k v = l ++ [(k, v)] := by
  induction l with
  | nil => rfl
  | cons p t ih =>
      obtain ⟨k', v'⟩ := p
      have hk : k' ≠ k := h (k', v') (List.mem_cons_self _ _)
      simp only [mapSet, if_neg hk, List.cons_append, List.cons.injEq, true_and]
      exact ih fun q hq => h q (List.mem_cons_of_mem _ hq)

/-- A `x && x > bound` truthiness guard of `validateProcessingOptions` holds
exactly when the option is present with a value strictly above the bound,
provided the bound is nonnegative (an explicit `0` is falsy but also never
above the bound). -/
theorem jsGuard_iff (a : Option ℚ) (bound : ℚ) (hb : 0 ≤ bound) :
    ((jsOrQ a 0 ≠ 0 ∧ bound < jsOrQ a 0) ↔ ∃ w, a = some w ∧ bound < w) := by
  cases a with
  | none => simp [jsOrQ]
  | some v =>
      by_cases hv : v = 0
      · subst hv
        have h0 : jsOrQ (some (0 : ℚ)) 0 = 0 := by simp [jsOrQ]
        rw [h0]
        constructor
        · rintro ⟨habs, -⟩
          exact absurd rfl habs
        · rintro ⟨w, hw, hlt⟩
          cases hw
          exact absurd hlt (not_lt.mpr hb)
      · simp [jsOrQ, hv]

/-- `validateProcessingOptions` succeeds exactly when none of the five
documented conditions holds (source dimensions nonnegative). -/
theorem validateOptions_ok_iff (options : VideoProcessingOptions)
    (metadata : VideoMetadata) (hw : 0 ≤ metadata.width) (hh : 0 ≤ metadata.height) :
    (validateProcessingOptions options metadata = Except.ok () ↔
      ¬(options.outputFormat ∉ supportedFormats ∨
        (∃ w, options.width = some w ∧ metadata.width * 2 < w) ∨
        (∃ h, options.height = some h ∧ metadata.height * 2 < h) ∨
        (∃ b, options.bitrate = some b ∧ 50000000 < b) ∨
        (∃ f, options.frameRate = some f ∧ 120 < f))) := by
  have w_iff := jsGuard_iff options.width (metadata.width * 2) (by linarith)
  have h_iff := jsGuard_iff options.height (metadata.height * 2) (by linarith)
  have b_iff := jsGuard_iff options.bitrate 50000000 (by norm_num)
  have f_iff := jsGuard_iff options.frameRate 120 (by norm_num)
  unfold validateProcessingOptions
  split_ifs with h1 h2 h3 h4 h5
  · exact (false_iff _).mpr (not_not_intro (Or.inr (Or.inl (w_iff.mp h2))))
  · exact (false_iff _).mpr (not_not_intro (Or.inr (Or.inr (Or.inl (h_iff.mp h3)))))
  · exact (false_iff _).mpr
      (not_not_intro (Or.inr (Or.inr (Or.inr (Or.inl (b_iff.mp h4))))))
  · exact (false_iff _).mpr
      (not_not_intro (Or.inr (Or.inr (Or.inr (Or.inr (f_iff.mp h5))))))
  · refine iff_of_true rfl ?_
    rintro (hf | hw' | hh' | hb' | hf')
    exacts [hf h1, h2 (w_iff.mpr hw'), h3 (h_iff.mpr hh'),
      h4 (b_iff.mpr hb'), h5 (f_iff.mpr hf')]
  · exact (false_iff _).mpr (not_not_intro (Or.inl h1))

/-- C7: `validateOptions(options, metadata)` fails exactly when the output
format is outside `{mp4, avi, mov, webm, mkv}`, or a requested width (resp.
height) strictly exceeds twice the source width (resp. height), or a requested
bitrate strictly exceeds 50,000,000 bps, or a requested frame rate strictly
exceeds 120; it succeeds otherwise (source dimensions nonnegative). -/
theorem validateProcessingOptions_characterization
    (options : VideoProcessingOptions) (metadata : VideoMetadata)
    (hw : 0 ≤ metadata.width) (hh : 0 ≤ metadata.height) :
    (validateProcessingOptions options metadata = Except.ok () ↔
      ¬(options.outputFormat ∉ supportedFormats ∨
        (∃ w, options.width = some w ∧ metadata.width * 2 < w) ∨
        (∃ h, options.height = some h ∧ metadata.height * 2 < h) ∨
        (∃ b, options.bitrate = some b ∧ 50000000 < b) ∨
        (∃ f, options.frameRate = some f ∧ 120 < f))) :=
  validateOptions_ok_iff options metadata hw hh

/-- Witness for C7: on the 1920×1080 source a plain mp4/medium request is
accepted. -/
theorem validateProcessingOptions_characterization_witness :
    (0 : ℚ) ≤ mdStd.width ∧ (0 : ℚ) ≤ mdStd.height ∧
    validateProcessingOptions { outputFormat := "mp4", quality := "medium" } mdStd =
      Except.ok () := by
  refine ⟨by norm_num [mdStd], by norm_num [mdStd], ?_⟩
  refine (validateProcessingOptions_characterization
    { outputFormat := "mp4", quality := "medium" } mdStd
    (by norm_num [mdStd]) (by norm_num [mdStd])).mpr ?_
  simp [supportedFormats]

/-- C8: `checkAvailable(amount)` fails with `InsufficientMemory` exactly when
`amount > memoryLimit − currentUsage`, succeeds when
`amount ≤ memoryLimit − currentUsage`, and in both cases leaves the ledger
state unchanged. -/
theorem checkAvailableMemory_spec (m : MemoryManager) (amount : ℚ) :
    (amount ≤ m.memoryLimit - m.currentUsage →
      (checkAvailableMemory m amount).1 = Except.ok ()) ∧
    (m.memoryLimit - m.currentUsage < amount →
      (checkAvailableMemory m amount).1 =
        Except.error (VPErr.insufficientMemory amount (m.memoryLimit - m.currentUsage))) ∧
    (checkAvailableMemory m amount).2 = m := by
  refine ⟨fun h => ?_, fun h => ?_, rfl⟩
  · simp [checkAvailableMemory, not_lt.mpr h]
  · simp [checkAvailableMemory, h]

/-- Witness for C8: on a fresh 1000-byte ledger, 500 bytes are available and
1200 bytes are refused. -/
theorem checkAvailableMemory_spec_witness :
    ((500 : ℚ) ≤ (MemoryManager.init 1000).memoryLimit -
        (MemoryManager.init 1000).currentUsage ∧
      (checkAvailableMemory (MemoryManager.init 1000) 500).1 = Except.ok ()) ∧
    ((MemoryManager.init 1000).memoryLimit -
        (MemoryManager.init 1000).currentUsage < (1200 : ℚ) ∧
      (checkAvailableMemory (MemoryManager.init 1000) 1200).1 =
        Except.error (VPErr.insufficientMemory 1200
          ((MemoryManager.init 1000).memoryLimit -
            (MemoryManager.init 1000).currentUsage))) := by
  constructor
  · exact ⟨by norm_num [MemoryManager.init],
      (checkAvailableMemory_spec (MemoryManager.init 1000) 500).1
        (by norm_num [MemoryManager.init])⟩
  · exact ⟨by norm_num [MemoryManager.init],
      (checkAvailableMemory_spec (MemoryManager.init 1000) 1200).2.1
        (by norm_num [MemoryManager.init])⟩

/-- Ordering of the quality tiers: low < medium < high < ultra. -/
def tierRank (quality : String) : ℕ :=
  if quality = "low" then 0
  else if quality = "medium" then 1
  else if quality = "high" then 2
  else 3

/-- C9: for a fixed compression ratio the computed quality score is monotone
non-decreasing in the quality tier (low ≤ medium ≤ high ≤ ultra). -/
theorem qualityScore_monotone (q1 q2 : String) (cr : ℚ)
    (h1 : q1 ∈ (["low", "medium", "high", "ultra"] : List String))
    (h2 : q2 ∈ (["low", "medium", "high", "ultra"] : List String))
    (hle : tierRank q1 ≤ tierRank q2) :
    calculateQualityScore q1 cr ≤ calculateQualityScore q2 cr := by
  have hbase : baseScore q1 ≤ baseScore q2 := by
    fin_cases h1 <;> fin_cases h2 <;>
      simp_all [tierRank, baseScore] <;> norm_num
  unfold calculateQualityScore
  exact max_le_max le_rfl (min_le_min le_rfl (by linarith))

/-- Witness for C9: at compression ratio 1/2, low scores at most ultra. -/
theorem qualityScore_monotone_witness :
    ("low" ∈ (["low", "medium", "high", "ultra"] : List String)) ∧
    ("ultra" ∈ (["low", "medium", "high", "ultra"] : List String)) ∧
    tierRank "low" ≤ tierRank "ultra" ∧
    calculateQualityScore "low" (1/2) ≤ calculateQualityScore "ultra" (1/2) :=
  ⟨by decide, by decide, by decide,
    qualityScore_monotone "low" "ultra" (1/2) (by decide) (by decide) (by decide)⟩

/-- C10: `cancelJob` returns `true` exactly when the job exists and is in the
`'processing'` state; whenever it returns `false` (unknown id, queued job,
terminal job) the job map — every record included — is left unchanged. -/
theorem cancelJob_guard (jobs : JobMap) (jobId now : ℕ) :
    ((cancelJob jobs jobId now).2 = true ↔
      ∃ j, assocLookup jobs jobId = some j ∧ j.status = JobStatus.processing) ∧
    ((cancelJob jobs jobId now).2 = false → (cancelJob jobs jobId now).1 = jobs) := by
  unfold cancelJob
  cases h : assocLookup jobs jobId with
  | none => simp
  | some j =>
      by_cases hs : j.status = JobStatus.processing
      · simp [hs]
      · simp [hs]

/-- Witness for C10: cancelling an unknown id on the empty map returns `false`
and changes nothing. -/
theorem cancelJob_guard_witness :
    (cancelJob ([] : JobMap) 7 0).1 = ([] : JobMap) ∧
    (cancelJob ([] : JobMap) 7 0).2 = false :=
  ⟨(cancelJob_guard ([] : JobMap) 7 0).2 rfl, rfl⟩

/-- A job sitting in the `'processing'` state at 40% progress. -/
def jobProc : ProcessingJob :=
  { id := 0, inputPath := "in.mp4", outputPath := "out.mp4",
    options := { outputFormat := "mp4", quality := "medium" },
    status := JobStatus.processing, progress := 40, createdAt := 0,
    startedAt := some 1 }

/-- C1 counterexample: cancelling a job that is `'processing'` succeeds
(returns `true`) but records the status value `'failed'` — not a dedicated
cancelled value, which the status union does not contain. -/
theorem cancelJob_cancelled_counterexample :
    (cancelJob [(0, jobProc)] 0 9).2 = true ∧
    (assocLookup (cancelJob [(0, jobProc)] 0 9).1 0).map ProcessingJob.status =
      some JobStatus.failed := by
  constructor <;> rfl

/-- C1 amended: whenever `cancelJob` succeeds it marks the job `'failed'`
with error text `'Cancelled by user'` and stamps `completedAt` (the status
enumeration has no cancelled value; the `jobCancelled` event is emitted while
the record says failed). -/
theorem cancelJob_marks_failed (jobs : JobMap) (jobId now : ℕ)
    (h : (cancelJob jobs jobId now).2 = true) :
    ∃ j, assocLookup (cancelJob jobs jobId now).1 jobId = some j ∧
      j.status = JobStatus.failed ∧ j.error = some "Cancelled by user" ∧
      j.completedAt = some now := by
  unfold cancelJob at h ⊢
  cases hl : assocLookup jobs jobId with
  | none => simp [hl] at h
  | some job =>
      simp only [hl] at h ⊢
      by_cases hs : job.status = JobStatus.processing
      · simp only [hs, ne_eq, not_true_eq_false, if_false] at h ⊢
        exact ⟨_, assocLookup_mapSet_self _ _ _, rfl, rfl, rfl⟩
      · simp [hs] at h

/-- Witness for the amended C1 at the concrete processing job. -/
theorem cancelJob_marks_failed_witness :
    ∃ j, assocLookup (cancelJob [(0, jobProc)] 0 9).1 0 = some j ∧
      j.status = JobStatus.failed ∧ j.error = some "Cancelled by user" ∧
      j.completedAt = some 9 :=
  cancelJob_marks_failed [(0, jobProc)] 0 9 rfl

/-- A request carrying an explicit width of `0`. -/
def optWidthZero : VideoProcessingOptions :=
  { outputFormat := "mp4", quality := "medium", width := some 0 }

/-- C6 counterexample: the claim's `??` semantics keeps an explicit width of
`0`, while the code's `||` falls back to the metadata width 1920, so the two
resolvers disagree. -/
theorem resolver_explicit_zero_counterexample :
    (calculateProcessingParameters optWidthZero mdStd).width = 1920 ∧
    (specResolvedParameters optWidthZero mdStd).width = 0 ∧
    calculateProcessingParameters optWidthZero mdStd ≠
      specResolvedParameters optWidthZero mdStd := by
  refine ⟨?_, ?_, fun hEq => ?_⟩
  · simp [calculateProcessingParameters, jsOrQ, optWidthZero, mdStd]
  · simp [specResolvedParameters, optWidthZero, mdStd]
  · have hw := congrArg ResolvedParameters.width hEq
    simp [calculateProcessingParameters, specResolvedParameters, jsOrQ,
      optWidthZero, mdStd] at hw

/-- Modelled from the amended claim: the resolver exactly as C6 states it
except that every `??` is JS `||` — the option value is used only when present
and nonzero, an explicit `0` falls back — with the claim's quality tables
`m = {low: 1/2, medium: 1, high: 3/2, ultra: 2}`,
`a = {low: 3/10, medium: 3/5, high: 4/5, ultra: 1}`,
`b = {low: 60, medium: 75, high: 85, ultra: 95}`. -/
def specAmendedResolvedParameters (options : VideoProcessingOptions)
    (metadata : VideoMetadata) : ResolvedParameters :=
  let m : ℚ :=
    if options.quality = "low" then 1/2
    else if options.quality = "medium" then 1
    else if options.quality = "high" then 3/2
    else 2
  let a : ℚ :=
    if options.quality = "low" then 3/10
    else if options.quality = "medium" then 3/5
    else if options.quality = "high" then 4/5
    else 1
  let b : ℚ :=
    if options.quality = "low" then 60
    else if options.quality = "medium" then 75
    else if options.quality = "high" then 85
    else 95
  let width := jsOrQ options.width metadata.width
  let height := jsOrQ options.height metadata.height
  let bitrate := jsOrQ options.bitrate ((⌊(width * height / 1000) * m⌋ : ℤ) : ℚ)
  let frameRate := jsOrQ options.frameRate metadata.frameRate
  let compressionRatio := (bitrate / metadata.bitrate) * a
  let qualityScore := max 0 (min 100 (b - max 0 ((1 - compressionRatio) * 20)))
  { width := width, height := height, bitrate := bitrate, frameRate := frameRate
    compressionRatio := compressionRatio, qualityScore := qualityScore }

/-- C6 amended: on the four quality tiers the code's resolver computes exactly
the claim's formulas with `||` in place of `??` (an explicit `0` falls back to
the metadata/optimal value). -/
theorem calculateProcessingParameters_amended (options : VideoProcessingOptions)
    (metadata : VideoMetadata)
    (hq : options.quality ∈ (["low", "medium", "high", "ultra"] : List String)) :
    calculateProcessingParameters options metadata =
      specAmendedResolvedParameters options metadata := by
  simp only [List.mem_cons, List.mem_singleton, List.not_mem_nil, or_false] at hq
  rcases hq with h | h | h | h <;>
    simp [calculateProcessingParameters, specAmendedResolvedParameters,
      calculateOptimalBitrate, qualityMultiplier, qualityAdjustment, baseScore,
      calculateCompressionRatio, calculateQualityScore, h, ratFloor_eq_intFloor]

/-- Witness for the amended C6 at the explicit-zero request. -/
theorem calculateProcessingParameters_amended_witness :
    optWidthZero.quality ∈ (["low", "medium", "high", "ultra"] : List String) ∧
    calculateProcessingParameters optWidthZero mdStd =
      specAmendedResolvedParameters optWidthZero mdStd :=
  ⟨by decide, calculateProcessingParameters_amended optWidthZero mdStd (by decide)⟩

/-- C4: on every failure of the external content-analysis call (network error,
timeout, non-OK HTTP status, missing candidates, unparseable body)
`analyzeVideo` resolves — no error reaches the caller — with the fallback
result derived from the metadata alone: scene count
`max(1, floor(duration / 30))` and motion level `'medium'`. -/
theorem analyzeVideo_fallback (outcome : FetchOutcome) (metadata : VideoMetadata)
    (h : outcome.isFailure = true) :
    analyzeVideo outcome metadata = Except.ok (fallbackAnalysisResult metadata) ∧
    (fallbackAnalysisResult metadata).metadata.scenes =
      ((max 1 ⌊metadata.duration / 30⌋ : ℤ) : ℚ) ∧
    (fallbackAnalysisResult metadata).metadata.motionLevel = "medium" := by
  refine ⟨?_, ?_, rfl⟩
  · cases outcome
    all_goals first
      | rfl
      | simp [FetchOutcome.isFailure] at h
  · simp [fallbackAnalysisResult, generateFallbackAnalysis, ratFloor_eq_intFloor]

/-- Witness for C4: a timeout of the external analyzer on the 1920×1080
source yields the fallback (4 scenes for a 120 s video, medium motion). -/
theorem analyzeVideo_fallback_witness :
    FetchOutcome.isFailure FetchOutcome.timeout = true ∧
    (analyzeVideo FetchOutcome.timeout mdStd =
        Except.ok (fallbackAnalysisResult mdStd) ∧
      (fallbackAnalysisResult mdStd).metadata.scenes =
        ((max 1 ⌊mdStd.duration / 30⌋ : ℤ) : ℚ) ∧
      (fallbackAnalysisResult mdStd).metadata.motionLevel = "medium") :=
  ⟨rfl, analyzeVideo_fallback FetchOutcome.timeout mdStd rfl⟩

/-- A run environment in which every external collaborator succeeds on the
1920×1080, 100 MiB source. -/
def envOk : VPEnv :=
  { inputPath := "in.mp4", outputPath := "out.mp4",
    validateInput := Except.ok (), metadataResult := Except.ok mdStd,
    processingId := 0, elapsed := 1 }

/-- Every exit path of `VideoProcessor.processVideo` ends in the `finally`
block's `cleanup()`, so the final ledger state is `m.cleanup` whatever the
outcome. -/
theorem processVideoVP_snd_eq (env : VPEnv) (options : VideoProcessingOptions)
    (m : MemoryManager) : (processVideoVP env options m).2 = m.cleanup := by
  unfold processVideoVP
  cases hvi : env.validateInput with
  | error e => simp [hvi]
  | ok u =>
      cases u
      cases hmd : env.metadataResult with
      | error e => simp [hvi, hmd]
      | ok md =>
          by_cases hmem : m.memoryLimit - m.currentUsage < md.fileSize
          · simp [hvi, hmd, checkAvailableMemory, hmem]
          · cases hv : validateProcessingOptions options md with
            | error e => simp [hvi, hmd, checkAvailableMemory, hmem, hv]
            | ok u3 => cases u3; simp [hvi, hmd, checkAvailableMemory, hmem, hv]

/-- A ledger on which another, still in-flight, operation holds a 100 MiB
reservation. -/
def mgrWithOther : MemoryManager :=
  reserveMemory (MemoryManager.init 1073741824) "op_other" 104857600

/-- C2 counterexample: before the run another in-flight operation holds a
100 MiB reservation and the ledger's usage equals it; after one job runs to
a terminal state, `cleanup()` has emptied the whole reservation map and
zeroed `currentUsage`, wiping the other operation's reservation — so usage no
longer equals the sum of reservations still in flight. -/
theorem cleanup_wipes_other_reservations_counterexample :
    assocLookup mgrWithOther.reservedMemory "op_other" = some 104857600 ∧
    mgrWithOther.currentUsage = 104857600 ∧
    (processVideoVP envOk { outputFormat := "mp4", quality := "medium" }
        mgrWithOther).2.reservedMemory = ([] : List (String × ℚ)) ∧
    (processVideoVP envOk { outputFormat := "mp4", quality := "medium" }
        mgrWithOther).2.currentUsage = 0 := by
  refine ⟨rfl, ?_, ?_, ?_⟩
  · norm_num [mgrWithOther, reserveMemory, MemoryManager.init]
  · rw [processVideoVP_snd_eq]; rfl
  · rw [processVideoVP_snd_eq]; rfl

/-- C2 amended: `VideoProcessor.processVideo` never calls `reserveMemory`; on
every exit path (success or any validation, metadata, memory or options
failure) its `finally` block calls `cleanup()`, which clears the entire
reservation map — reservations held by other in-flight operations included —
and resets `currentUsage` to 0. -/
theorem processVideo_cleanup_always (env : VPEnv)
    (options : VideoProcessingOptions) (m : MemoryManager) :
    (processVideoVP env options m).2 = m.cleanup ∧
    (processVideoVP env options m).2.reservedMemory = ([] : List (String × ℚ)) ∧
    (processVideoVP env options m).2.currentUsage = 0 :=
  ⟨processVideoVP_snd_eq env options m,
   by rw [processVideoVP_snd_eq]; rfl,
   by rw [processVideoVP_snd_eq]; rfl⟩

/-- The test-suite configuration (src/unnamed/part_002) with a concurrency
bound of 1. -/
def cfgTest : VideoProcessingConfig :=
  { memoryLimit := 1073741824, maxFileSize := 524288000,
    tempDirectory := "/tmp", maxConcurrentJobs := 1,
    enableGPUAcceleration := false }

/-- A plain mp4/medium request. -/
def optsPlain : VideoProcessingOptions :=
  { outputFormat := "mp4", quality := "medium" }

/-- C3 counterexample: with `maxConcurrentJobs = 1`, two submissions leave two
jobs in `'processing'` simultaneously; the second submission entered
`'processing'` rather than staying queued. -/
theorem concurrency_bound_counterexample :
    countProcessing (applyEvents cfgTest
      [ServiceEvent.submit 0 "a.mp4" "o0.mp4" optsPlain 0,
       ServiceEvent.submit 1 "c.mp4" "o1.mp4" optsPlain 1] []) = 2 ∧
    cfgTest.maxConcurrentJobs = 1 ∧
    ¬(countProcessing (applyEvents cfgTest
      [ServiceEvent.submit 0 "a.mp4" "o0.mp4" optsPlain 0,
       ServiceEvent.submit 1 "c.mp4" "o1.mp4" optsPlain 1] []) ≤
        cfgTest.maxConcurrentJobs) ∧
    (assocLookup (applyEvents cfgTest
      [ServiceEvent.submit 0 "a.mp4" "o0.mp4" optsPlain 0,
       ServiceEvent.submit 1 "c.mp4" "o1.mp4" optsPlain 1] []) 1).map
      ProcessingJob.status = some JobStatus.processing := by
  refine ⟨rfl, rfl, ?_, rfl⟩
  show ¬(2 ≤ 1)
  decide

/-- The trace that submits jobs `0, …, n−1` in order. -/
def submitsUpTo (n : ℕ) : List ServiceEvent :=
  (List.range n).map (fun i => ServiceEvent.submit i "in.mp4" "out.mp4" optsPlain 0)

/-- The job record a submission of id `i` inserts. -/
def mkSubmittedJob (i : ℕ) : ProcessingJob :=
  { id := i, inputPath := "in.mp4", outputPath := "out.mp4",
    options := optsPlain, status := JobStatus.processing, progress := 0,
    createdAt := 0, startedAt := some 0 }

/-- After `n` submissions the job map holds exactly jobs `0, …, n−1`. -/
theorem applyEvents_submitsUpTo (cfg : VideoProcessingConfig) (n : ℕ) :
    applyEvents cfg (submitsUpTo n) [] =
      (List.range n).map (fun i => (i, mkSubmittedJob i)) := by
  induction n with
  | zero => rfl
  | succ n ih =>
      have step : applyEvents cfg (submitsUpTo (n + 1)) [] =
          serviceStep cfg (applyEvents cfg (submitsUpTo n) [])
            (ServiceEvent.submit n "in.mp4" "out.mp4" optsPlain 0) := by
        rw [submitsUpTo, List.range_succ, List.map_append, applyEvents,
          List.foldl_append]
        rfl
      rw [step, ih, List.range_succ, List.map_append]
      exact mapSet_fresh _ _ _ fun p hp => by
        obtain ⟨i, hi, rfl⟩ := List.mem_map.mp hp
        exact Nat.ne_of_lt (List.mem_range.mp hi)

/-- Every one of the `n` submitted jobs is `'processing'`. -/
theorem countProcessing_submitsUpTo (cfg : VideoProcessingConfig) (n : ℕ) :
    countProcessing (applyEvents cfg (submitsUpTo n) []) = n := by
  rw [applyEvents_submitsUpTo, countProcessing]
  have h : ∀ a ∈ (List.range n).map (fun i => (i, mkSubmittedJob i)),
      (fun q : ℕ × ProcessingJob =>
        decide (q.2.status = JobStatus.processing)) a = true := by
    intro a ha
    obtain ⟨i, hi, rfl⟩ := List.mem_map.mp ha
    simp [mkSubmittedJob]
  rw [List.countP_eq_length.mpr h, List.length_map, List.length_range]

/-- C3 amended: `maxConcurrentJobs` sits in the configuration but the
submission path never consults it — every submission immediately enters
`'processing'`, so for any configured bound there is a trace of submissions
after which strictly more jobs than the bound are `'processing'` at once
(nothing queues). -/
theorem maxConcurrentJobs_not_enforced (cfg : VideoProcessingConfig) :
    ∃ events : List ServiceEvent,
      cfg.maxConcurrentJobs < countProcessing (applyEvents cfg events []) :=
  ⟨submitsUpTo (cfg.maxConcurrentJobs + 1), by
    rw [countProcessing_submitsUpTo]
    exact Nat.lt_succ_self _⟩

/-- A request whose bitrate already exceeds the 50 Mbps validation limit. -/
def optBigBitrate : VideoProcessingOptions :=
  { outputFormat := "mp4", quality := "medium", bitrate := some 60000000 }

/-- A parsed analyzer reply classifying the content as `web`. -/
def parsedWeb : ParsedGemini := { contentType := some "web" }

/-- The analysis result `analyzeVideo` produces for `parsedWeb` on the
standard source: `webm` is recommended. -/
def analysisWeb : GeminiAnalysisResult :=
  { contentType := "web", duration := 120,
    qualityAssessment := { videoQuality := 75, audioQuality := 75, overallScore := 75 },
    recommendations :=
      { suggestedFormat := "webm", suggestedQuality := "medium", optimizations := [] },
    metadata := { scenes := 1, motionLevel := "medium", complexity := 50 } }

/-- C5 counterexample: a pipeline-produced analysis recommends `webm`; the
merge applies it to a request whose unchanged bitrate fails validation.  The
merged options fail validation, yet the merge is not rejected — the options
passed on are the merged ones, not the originals, and the job fails. -/
theorem enhance_no_rejection_counterexample :
    analyzeVideo (FetchOutcome.okParsed parsedWeb) mdStd = Except.ok analysisWeb ∧
    (enhanceOptionsWithAI optBigBitrate analysisWeb).outputFormat = "webm" ∧
    enhanceOptionsWithAI optBigBitrate analysisWeb ≠ optBigBitrate ∧
    validateProcessingOptions (enhanceOptionsWithAI optBigBitrate analysisWeb)
      mdStd = Except.error VPErr.bitrateExceedsLimit ∧
    (processVideoVP envOk (enhanceOptionsWithAI optBigBitrate analysisWeb)
      (MemoryManager.init 1073741824)).1.success = false := by
  have hmerge : enhanceOptionsWithAI optBigBitrate analysisWeb =
      { outputFormat := "webm", quality := "medium", bitrate := some 60000000 } := by
    norm_num [enhanceOptionsWithAI, analysisWeb, optBigBitrate] <;> decide
  have hval : validateProcessingOptions (enhanceOptionsWithAI optBigBitrate analysisWeb)
      mdStd = Except.error VPErr.bitrateExceedsLimit := by
    rw [hmerge]
    norm_num [validateProcessingOptions, supportedFormats, jsOrQ, mdStd]
  refine ⟨?_, ?_, ?_, hval, ?_⟩
  · norm_num [analyzeVideo, analyzeContentWithGemini, parseGeminiResponse,
      parsedWeb, jsOrStr, jsOrQ, generateOptimizationRecommendations,
      analysisWeb, mdStd] <;> decide
  · rw [hmerge]
  · rw [hmerge]
    intro h
    have := congrArg VideoProcessingOptions.outputFormat h
    simp [optBigBitrate] at this
  · have hmem : ¬((MemoryManager.init 1073741824).memoryLimit -
        (MemoryManager.init 1073741824).currentUsage < mdStd.fileSize) := by
      norm_num [MemoryManager.init, mdStd]
    unfold processVideoVP
    simp only [envOk, checkAvailableMemory]
    rw [if_neg hmem, hval]

/-- C5 amended: the merge changes only `outputFormat` and `quality` on a copy
and is handed on without any merge-time re-validation or rejection (the merged
options are validated only inside `VideoProcessor.processVideo`); but a
recommendation produced by the analyzer pipeline always suggests a supported
format (`mp4` or `webm`) and quality is never validated, so a merge never
turns options that pass validation into options that fail it — the job cannot
fail the 4.2 validation because of the merge. -/
theorem enhanceOptionsWithAI_safe (o : VideoProcessingOptions)
    (md md' : VideoMetadata) (ca : ContentAnalysis) (a : GeminiAnalysisResult)
    (hrec : a.recommendations = generateOptimizationRecommendations ca md')
    (hok : validateProcessingOptions o md = Except.ok ()) :
    ((enhanceOptionsWithAI o a).width = o.width ∧
     (enhanceOptionsWithAI o a).height = o.height ∧
     (enhanceOptionsWithAI o a).bitrate = o.bitrate ∧
     (enhanceOptionsWithAI o a).frameRate = o.frameRate ∧
     (enhanceOptionsWithAI o a).codec = o.codec ∧
     (enhanceOptionsWithAI o a).audioCodec = o.audioCodec ∧
     (enhanceOptionsWithAI o a).removeAudio = o.removeAudio ∧
     (enhanceOptionsWithAI o a).startTime = o.startTime ∧
     (enhanceOptionsWithAI o a).endTime = o.endTime) ∧
    validateProcessingOptions (enhanceOptionsWithAI o a) md = Except.ok () := by
  have hfields : (enhanceOptionsWithAI o a).width = o.width ∧
      (enhanceOptionsWithAI o a).height = o.height ∧
      (enhanceOptionsWithAI o a).bitrate = o.bitrate ∧
      (enhanceOptionsWithAI o a).frameRate = o.frameRate ∧
      (enhanceOptionsWithAI o a).codec = o.codec ∧
      (enhanceOptionsWithAI o a).audioCodec = o.audioCodec ∧
      (enhanceOptionsWithAI o a).removeAudio = o.removeAudio ∧
      (enhanceOptionsWithAI o a).startTime = o.startTime ∧
      (enhanceOptionsWithAI o a).endTime = o.endTime := by
    unfold enhanceOptionsWithAI
    split_ifs <;> exact ⟨rfl, rfl, rfl, rfl, rfl, rfl, rfl, rfl, rfl⟩
  have hsugg : a.recommendations.suggestedFormat ∈ supportedFormats := by
    rw [hrec]
    simp only [generateOptimizationRecommendations]
    split_ifs <;> decide
  have hof : o.outputFormat ∈ supportedFormats := by
    by_contra hno
    unfold validateProcessingOptions at hok
    rw [if_pos hno] at hok
    cases hok
  have hmf : (enhanceOptionsWithAI o a).outputFormat ∈ supportedFormats := by
    unfold enhanceOptionsWithAI
    split_ifs <;> first | exact hsugg | exact hof
  refine ⟨hfields, ?_⟩
  unfold validateProcessingOptions at hok ⊢
  rw [hfields.1, hfields.2.1, hfields.2.2.1, hfields.2.2.2.1,
    if_neg (not_not_intro hmf)]
  rw [if_neg (not_not_intro hof)] at hok
  exact hok

/-- Witness for the amended C5: merging the `webm` recommendation into a valid
mp4/medium request keeps it valid. -/
theorem enhanceOptionsWithAI_safe_witness :
    analysisWeb.recommendations =
      generateOptimizationRecommendations (parseGeminiResponse parsedWeb) mdStd ∧
    validateProcessingOptions optsPlain mdStd = Except.ok () ∧
    validateProcessingOptions (enhanceOptionsWithAI optsPlain analysisWeb) mdStd =
      Except.ok () := by
  have hrec : analysisWeb.recommendations =
      generateOptimizationRecommendations (parseGeminiResponse parsedWeb) mdStd := by
    norm_num [analysisWeb, generateOptimizationRecommendations,
      parseGeminiResponse, parsedWeb, jsOrQ, jsOrStr, mdStd] <;> decide
  have hok : validateProcessingOptions optsPlain mdStd = Except.ok () := by
    norm_num [validateProcessingOptions, supportedFormats, jsOrQ, optsPlain, mdStd]
  exact ⟨hrec, hok,
    (enhanceOptionsWithAI_safe optsPlain mdStd mdStd (parseGeminiResponse parsedWeb)
      analysisWeb hrec hok).2⟩
